import Mathlib

/-!
Shallow embedding of the HRProject resume-scoring backend
(`app/services.py`, `app/utils.py`, `app/main.py`, `app/database.py`).

External collaborators (the remote OCR service, the chat-completion model,
the JSON parser of the standard library, uuid generation) are passed in as
oracle parameters; machine-level Python values are modelled by `Json`,
Python exceptions by `PyErr` (`HTTPException` carries a status code and a
detail string; any other exception carries its message).  Side effects of
the request flows (the single model invocation, the resume file write, the
database insert) are collected in an explicit `Event` trace.
-/

set_option maxHeartbeats 1000000

namespace HRProject

/-- A JSON value, as produced by Python's `json.loads`.  Numbers are
modelled by rationals (floats such as `87.5` are exact here). -/
inductive Json where
  | null : Json
  | bool (b : Bool) : Json
  | num (q : Rat) : Json
  | str (s : String) : Json
  | arr (xs : List Json) : Json
  | obj (fields : List (String × Json)) : Json

/-- A raised Python exception: either a FastAPI `HTTPException`
(status code + detail) or any other exception with its message. -/
inductive PyErr where
  | http (status : Nat) (detail : String) : PyErr
  | other (msg : String) : PyErr
deriving DecidableEq

/-- Python's `str(e)`: Starlette's `HTTPException.__str__` is
`f"{status_code}: {detail}"`; for other exceptions it is the message. -/
def PyErr.toPy : PyErr → String
  | .http status detail => toString status ++ ": " ++ detail
  | .other msg => msg

/-- Python's `sep.join(xs)`. -/
def pyJoin (sep : String) : List String → String
  | [] => ""
  | [x] => x
  | x :: y :: xs => x ++ sep ++ pyJoin sep (y :: xs)

/-- Splitting a character list at every comma: the semantics of Python's
`str.split(",")` (an empty input yields one empty field). -/
def splitOnComma : List Char → List (List Char)
  | [] => [[]]
  | c :: rest =>
    match splitOnComma rest with
    | [] => [[]]
    | g :: gs => if c = ',' then [] :: g :: gs else (c :: g) :: gs

/-- Model of `s.replace(";", ",").split(",")` from `generate_jd_from_llm`
(`app/services.py` lines 106-107): the single-character replacement is a
character map, then the comma split. -/
def naiveSplit (s : String) : List String :=
  (splitOnComma (s.toList.map (fun c => if c = ';' then ',' else c))).map List.asString

/-- The whitespace characters stripped by Python's `str.strip()`
(ASCII part: space, tab, newline, carriage return, vertical tab, form feed). -/
def isPySpace (c : Char) : Bool :=
  c = ' ' || c = '\t' || c = '\n' || c = '\r' || c = '\x0b' || c = '\x0c'

/-- Python's `s.strip()`. -/
def pyStrip (s : String) : String :=
  (((s.toList.dropWhile isPySpace).reverse.dropWhile isPySpace).reverse).asString

/-- Model of `os.path.splitext` on a bare filename: split at the last dot, keeping
the dot with the extension; leading dots never start an extension. -/
def pySplitext (s : String) : String × String :=
  let cs := s.toList
  let lead := (cs.takeWhile (fun c => c = '.')).length
  let rest := cs.drop lead
  let sufLen := (rest.reverse.takeWhile (fun c => c ≠ '.')).length
  if sufLen = rest.length then (s, "")
  else
    let cut := cs.length - sufLen - 1
    ((cs.take cut).asString, (cs.drop cut).asString)

/-- Python's `s.endswith(suffix)`. -/
def pyEndsWith (s suf : String) : Bool :=
  List.isSuffixOf suf.toList s.toList

/-- Python's `d.get(key, dflt)`: on a dict, the stored value or the
default; on any non-dict value `.get` raises `AttributeError`. -/
def pyDictGet (j : Json) (key : String) (dflt : Json) : Except String Json :=
  match j with
  | .obj fields =>
    match fields.lookup key with
    | some v => .ok v
    | none => .ok dflt
  | _ => .error "AttributeError: object has no attribute get"

/-- Pydantic validation of a `float` field (ints are numbers here too). -/
def pydanticFloat : Json → Except String Rat
  | .num q => .ok q
  | _ => .error "validation error: value is not a valid float"

/-- Pydantic validation of a `str` field. -/
def pydanticStr : Json → Except String String
  | .str s => .ok s
  | _ => .error "validation error: value is not a valid string"

/-- Model of `ScoreResponse` (`app/models.py` lines 63-67): the scoring response
model with `score: float`, `explanation: str`, `filename: Optional[str]`. -/
structure ScoreResponse where
  score : Rat
  explanation : String
  filename : Option String
deriving DecidableEq

/-- Model of `ScoreResponse(**score_data)`: keyword expansion of the parsed model
output requires a dict whose `score` and `explanation` entries validate;
otherwise a `TypeError`/`ValidationError` is raised. -/
def mkScoreResponse (j : Json) : Except PyErr ScoreResponse :=
  match j with
  | .obj fields =>
    match fields.lookup "score", fields.lookup "explanation" with
    | some sv, some ev =>
      match pydanticFloat sv, pydanticStr ev with
      | .ok q, .ok s => .ok ⟨q, s, none⟩
      | _, _ => .error (.other "ValidationError: ScoreResponse")
    | _, _ => .error (.other "ValidationError: ScoreResponse")
  | _ => .error (.other "TypeError: argument after ** must be a mapping")

/-- The observable side effects of the request flows. -/
inductive Event where
  | llmCall (resume_text job_description : String) : Event
  | fileWrite (path : String) (contents : List Nat) : Event
  | dbCreateApplication (candidate_name : String) (score : Json)
      (match_details : Json) (resume_path : String) : Event

/-- Events that mutate persistent state (the uploads directory or the
applications table), as opposed to the outbound model call. -/
def isWriteEvent : Event → Bool
  | .llmCall _ _ => false
  | .fileWrite _ _ => true
  | .dbCreateApplication _ _ _ _ => true

/-!
### `app/utils.py`
-/

/-- Model of `extract_text_from_docx` (`app/utils.py` lines 11-17): the DOCX
library call is the oracle argument, yielding either the paragraph texts
in document order or a parse-error message; on success the texts are
joined with newlines, on failure an `HTTPException(500)` wraps the
underlying message. -/
def extract_text_from_docx (docxResult : Except String (List String)) :
    Except PyErr String :=
  match docxResult with
  | .ok paragraphs => .ok (pyJoin "\n" paragraphs)
  | .error e => .error (.http 500 ("Error processing DOCX file: " ++ e))

/-- Model of `get_text_from_resume` (`app/utils.py` lines 19-32): detect the file
type from the filename suffix; anything not ending in `.pdf`/`.docx` is
rejected with `HTTPException(400)`. -/
def get_text_from_resume (file_bytes : List Nat) (filename : String) :
    Except PyErr (List Nat × String) :=
  if pyEndsWith filename ".pdf" then .ok (file_bytes, "pdf")
  else if pyEndsWith filename ".docx" then .ok (file_bytes, "docx")
  else .error (.http 400 "Unsupported file format. Please upload a .pdf or .docx file.")

/-!
### `app/services.py`
-/

/-- The pages of an OCR response: each page optionally carries a
`markdown` field (`page.get('markdown', '')` reads it with default `""`). -/
abbrev OcrPages := List (Option String)

/-- The PDF branch of `extract_resume_text` (`app/services.py` lines
28-58): the remote OCR call is the oracle argument; on success join every
page's `markdown` (missing fields contribute `""`) with single spaces, on
any exception raise `HTTPException(500)` with the underlying message. -/
def ocrExtract (ocrResult : Except String OcrPages) : Except PyErr String :=
  match ocrResult with
  | .ok pages => .ok (pyJoin " " (pages.map (fun p => p.getD "")))
  | .error e => .error (.http 500 ("OCR processing failed: " ++ e))

/-- Model of `extract_resume_text` (`app/services.py` lines 22-69): dispatch on the
declared type; `"pdf"` goes to the OCR branch, `"docx"` to
`extract_text_from_docx`, anything else returns the empty string. -/
def extract_resume_text (ocr : List Nat → Except String OcrPages)
    (docx : List Nat → Except String (List String))
    (file_bytes : List Nat) (file_type : String) : Except PyErr String :=
  if file_type = "pdf" then ocrExtract (ocr file_bytes)
  else if file_type = "docx" then extract_text_from_docx (docx file_bytes)
  else .ok ""

/-- The scoring prompt built by `get_llm_score`
(`app/services.py` lines 75-93). -/
def scorePrompt (resume_text job_description : String) : String :=
  "\n    You are an expert HR analyst. Your task is to evaluate a candidate's resume against a specific job description.\n    Provide a score from 0 to 100, where 100 represents a perfect match.\n    Also, provide a detailed explanation for your score, highlighting the candidate's strengths and weaknesses based *only* on the information in the resume and the requirements in the job description.\n\n    **Job Description:**\n    ---\n    "
  ++ job_description
  ++ "\n    ---\n\n    **Candidate's Resume:**\n    ---\n    "
  ++ resume_text
  ++ "\n    ---\n\n    **Output Format:**\n    Please return a single JSON object with two keys: \"score\" (a float) and \"explanation\" (a string).\n    Example: \x7b\"score\": 85.5, \"explanation\": \"The candidate is a strong fit because...\"\x7d\n    "

/-- Model of `get_llm_score` (`app/services.py` lines 71-100): build the prompt,
invoke the model once (`llm` is the oracle for `llm_client.invoke`, whose
result is the response text or a transport error message), parse the text
as JSON (`parse` is the oracle for `json.loads`, `none` meaning
`JSONDecodeError`).  A parse failure raises the fixed non-JSON
`HTTPException(500)`; any other error is wrapped with its message.  The
event trace records the single model invocation. -/
def get_llm_score (parse : String → Option Json)
    (llm : String → Except String String)
    (resume_text job_description : String) :
    Except PyErr Json × List Event :=
  let call := Event.llmCall resume_text job_description
  match llm (scorePrompt resume_text job_description) with
  | .error e =>
      (.error (.http 500 ("An error occurred with the LLM: " ++ e)), [call])
  | .ok content =>
    match parse content with
    | some j => (.ok j, [call])
    | none => (.error (.http 500 "LLM returned a non-JSON response."), [call])

/-- Model of `JobRoleInput` (`app/models.py` lines 72-90). -/
structure JobRoleInput where
  job_title : String
  company_name : String
  key_responsibilities : String
  required_skills : String
  experience_level : String
  location : String
  extra_details : Option String

/-- The generation prompt built by `generate_jd_from_llm`
(`app/services.py` lines 109-128), given the already-joined
responsibility and skill lists. -/
def jdPrompt (jd : JobRoleInput) (responsibilities_list skills_list : String) : String :=
  "\n    You are a professional HR copywriter. Your task is to create a comprehensive and engaging job description based on the following details.\n    The tone should be professional but inviting. Structure the output with clear sections like \"About Us\", \"Position Summary\", \"Key Responsibilities\", \"Qualifications\", and \"Benefits\" (you can create a generic but appealing benefits section).\n\n    **Job Title:** "
  ++ jd.job_title
  ++ "\n    **Company Name:** " ++ jd.company_name
  ++ "\n    **Location:** " ++ jd.location
  ++ "\n    **Experience Level:** " ++ jd.experience_level
  ++ "\n\n    **Key Responsibilities to include:**\n    - " ++ responsibilities_list
  ++ "\n\n    **Required Skills and Qualifications:**\n    - " ++ skills_list
  ++ "\n\n    **Additional Details from user:**\n    "
  ++ (match jd.extra_details with
      | some d => if d = "" then "N/A" else d
      | none => "N/A")
  ++ "\n\n    Please generate the full, well-formatted job description now.\n    "

/-- Model of `generate_jd_from_llm` (`app/services.py` lines 102-133): split the
responsibility and skill strings naively (`;` replaced by `,`, then split
on `,`), join with `"\n- "` into the prompt, invoke the model once and
return its raw text; a transport error is wrapped with its message. -/
def generate_jd_from_llm (llm : String → Except String String)
    (job_details : JobRoleInput) : Except PyErr String :=
  let responsibilities_list := pyJoin "\n- " (naiveSplit job_details.key_responsibilities)
  let skills_list := pyJoin "\n- " (naiveSplit job_details.required_skills)
  match llm (jdPrompt job_details responsibilities_list skills_list) with
  | .ok out => .ok out
  | .error e =>
      .error (.http 500 ("An error occurred while generating the job description with the LLM: " ++ e))

/-!
### `app/main.py`: the single and batch scoring flows
-/

/-- Model of `score_resume` (`app/main.py` lines 150-193): detect the type, extract
the text, reject blank text with `HTTPException(400)`, score, then write
the resume file under a fresh name (`uuidStr` is the oracle for
`uuid.uuid4()`), insert the application record, and build the response
from the raw score dict.  The second component is the trace of side
effects in program order. -/
def score_resume (parse : String → Option Json)
    (llm : String → Except String String)
    (ocr : List Nat → Except String OcrPages)
    (docx : List Nat → Except String (List String))
    (uuidStr : String) (job_description : String)
    (filename : String) (file_bytes : List Nat)
    (candidate_name : Option String) :
    Except PyErr ScoreResponse × List Event :=
  match get_text_from_resume file_bytes filename with
  | .error e => (.error e, [])
  | .ok (fb, ft) =>
    match extract_resume_text ocr docx fb ft with
    | .error e => (.error e, [])
    | .ok resume_text =>
      if pyStrip resume_text = "" then
        (.error (.http 400 "Could not extract any text from the resume."), [])
      else
        match get_llm_score parse llm resume_text job_description with
        | (.error e, evs) => (.error e, evs)
        | (.ok score_data, evs) =>
          let file_ext := (pySplitext filename).2
          let unique_filename := uuidStr ++ file_ext
          let writeEv := Event.fileWrite ("uploads/" ++ unique_filename) fb
          let cname := match candidate_name with
            | none => "Unknown Candidate"
            | some n => if n = "" then "Unknown Candidate" else n
          match pyDictGet score_data "score" (.num 0) with
          | .error m => (.error (.other m), evs ++ [writeEv])
          | .ok scoreJ =>
            match pyDictGet score_data "explanation" (.str "") with
            | .error m => (.error (.other m), evs ++ [writeEv])
            | .ok explJ =>
              let dbEv := Event.dbCreateApplication cname scoreJ explJ unique_filename
              match mkScoreResponse score_data with
              | .error e2 => (.error e2, evs ++ [writeEv, dbEv])
              | .ok resp => (.ok resp, evs ++ [writeEv, dbEv])

/-- One uploaded file of a batch request: its client-supplied filename and
its raw bytes. -/
structure UploadFile where
  filename : String
  bytes : List Nat

/-- The loop body of `score_resumes_batch` (`app/main.py` lines 207-254):
the `try` block for one file; any raised exception is converted into a
degraded entry with score `0` and `"Error processing file: " ++ str(e)`,
keeping the side effects that happened before the exception. -/
def score_batch_item (parse : String → Option Json)
    (llm : String → Except String String)
    (ocr : List Nat → Except String OcrPages)
    (docx : List Nat → Except String (List String))
    (uuidStr : String) (job_description : String) (f : UploadFile) :
    ScoreResponse × List Event :=
  let degraded := fun (e : PyErr) =>
    ScoreResponse.mk 0 ("Error processing file: " ++ e.toPy) (some f.filename)
  match get_text_from_resume f.bytes f.filename with
  | .error e => (degraded e, [])
  | .ok (fb, ft) =>
    match extract_resume_text ocr docx fb ft with
    | .error e => (degraded e, [])
    | .ok resume_text =>
      if pyStrip resume_text = "" then
        (ScoreResponse.mk 0 "Could not extract text from this file." (some f.filename), [])
      else
        match get_llm_score parse llm resume_text job_description with
        | (.error e, evs) => (degraded e, evs)
        | (.ok score_data, evs) =>
          let file_ext := (pySplitext f.filename).2
          let unique_filename := uuidStr ++ file_ext
          let writeEv := Event.fileWrite ("uploads/" ++ unique_filename) fb
          let candidate_name := (pySplitext f.filename).1
          match pyDictGet score_data "score" (.num 0) with
          | .error m => (degraded (.other m), evs ++ [writeEv])
          | .ok scoreJ =>
            match pyDictGet score_data "explanation" (.str "") with
            | .error m => (degraded (.other m), evs ++ [writeEv])
            | .ok explJ =>
              let dbEv := Event.dbCreateApplication candidate_name scoreJ explJ unique_filename
              let evsAll := evs ++ [writeEv, dbEv]
              match pydanticFloat scoreJ, pydanticStr explJ with
              | .ok q, .ok s => (ScoreResponse.mk q s (some f.filename), evsAll)
              | .error m, _ => (degraded (.other m), evsAll)
              | _, .error m => (degraded (.other m), evsAll)

/-- The batch loop of `score_resumes_batch`: each iteration appends
exactly one result (`i` indexes the fresh uuid of the iteration). -/
def batchGo (parse : String → Option Json)
    (llm : String → Except String String)
    (ocr : List Nat → Except String OcrPages)
    (docx : List Nat → Except String (List String))
    (uuids : Nat → String) (job_description : String) :
    Nat → List UploadFile → List ScoreResponse × List Event
  | _, [] => ([], [])
  | i, f :: rest =>
    let r := score_batch_item parse llm ocr docx (uuids i) job_description f
    let tail := batchGo parse llm ocr docx uuids job_description (i + 1) rest
    (r.1 :: tail.1, r.2 ++ tail.2)

/-- Model of `score_resumes_batch` (`app/main.py` lines 195-256): process at most
the first five uploaded files (`resume_files[:5]`), collecting one result
per file in input order. -/
def score_resumes_batch (parse : String → Option Json)
    (llm : String → Except String String)
    (ocr : List Nat → Except String OcrPages)
    (docx : List Nat → Except String (List String))
    (uuids : Nat → String) (job_description : String)
    (resume_files : List UploadFile) : List ScoreResponse × List Event :=
  batchGo parse llm ocr docx uuids job_description 0 (resume_files.take 5)

/-!
### `app/main.py` + `app/database.py`: status-update endpoints
-/

/-- A stored row with the fields the status endpoints touch. -/
structure AppRecord where
  id : String
  status : String
deriving DecidableEq

/-- Model of `UPDATE ... SET status = %s WHERE id = %s` followed by the
`rowcount > 0` check (`app/database.py` lines 154-164, 392-402, 538-548). -/
def sqlUpdateStatus (table : List AppRecord) (rid newStatus : String) :
    List AppRecord × Bool :=
  (table.map (fun r => if r.id = rid then AppRecord.mk r.id newStatus else r),
   table.any (fun r => r.id = rid))

/-- The allowed candidate-application statuses (`app/main.py` line 295). -/
def candidateStatuses : List String := ["pending", "shortlisted", "rejected"]

/-- The allowed job-posting statuses (`app/main.py` line 409). -/
def jobStatuses : List String := ["active", "closed", "draft"]

/-- The allowed job-application statuses (`app/main.py` line 577). -/
def jobApplicationStatuses : List String :=
  ["pending", "reviewed", "shortlisted", "rejected", "hired"]

/-- Model of `update_candidate_status` (`app/main.py` lines 289-302): reject a
status outside the allowed set with `HTTPException(400)` before touching
the table; otherwise run the update and report 404 when no row matched. -/
def update_candidate_status (db : List AppRecord) (app_id status : String) :
    Except PyErr String × List AppRecord :=
  if status ∈ candidateStatuses then
    let r := sqlUpdateStatus db app_id status
    if r.2 then (.ok ("Status updated to " ++ status), r.1)
    else (.error (.http 404 "Application not found"), r.1)
  else (.error (.http 400 "Invalid status"), db)

/-- Model of `update_job_status` (`app/main.py` lines 403-416). -/
def update_job_status (db : List AppRecord) (job_id status : String) :
    Except PyErr String × List AppRecord :=
  if status ∈ jobStatuses then
    let r := sqlUpdateStatus db job_id status
    if r.2 then (.ok ("Job status updated to " ++ status), r.1)
    else (.error (.http 404 "Job not found"), r.1)
  else (.error (.http 400 "Invalid status"), db)

/-- Model of `update_job_application_status` (`app/main.py` lines 571-584). -/
def update_job_application_status (db : List AppRecord) (app_id status : String) :
    Except PyErr String × List AppRecord :=
  if status ∈ jobApplicationStatuses then
    let r := sqlUpdateStatus db app_id status
    if r.2 then (.ok ("Application status updated to " ++ status), r.1)
    else (.error (.http 404 "Application not found"), r.1)
  else (.error (.http 400 "Invalid status"), db)

/-!
### Concrete oracle fixtures used by the witnesses
-/

/-- The mocked scoring-model response text of spec §8. -/
def jsonText87 : String :=
  "\x7b\"score\": 87.5, \"explanation\": \"Strong match\"\x7d"

/-- The rational 87.5 (= 175/2), built explicitly so that kernel
evaluation of equality tests never gets stuck on the scientific-literal
parser. -/
def score87 : Rat := ⟨175, 2, by decide, by decide⟩

/-- The JSON value `json.loads` yields for `jsonText87`:
`{"score": 87.5, "explanation": "Strong match"}`. -/
def scoreJson87 : Json :=
  .obj [("score", .num score87), ("explanation", .str "Strong match")]

/-- A mocked `json.loads` that recognizes exactly `jsonText87`. -/
def parse87 : String → Option Json :=
  fun s => if s = jsonText87 then some scoreJson87 else none

/-- A mocked model that always answers `jsonText87`. -/
def llm87 : String → Except String String := fun _ => .ok jsonText87

/-- A mocked model that answers prose instead of JSON. -/
def llmProse : String → Except String String := fun _ => .ok "I cannot comply"

/-- A mocked model whose transport fails. -/
def llmDown : String → Except String String := fun _ => .error "connection refused"

/-- A mocked model that echoes its prompt. -/
def llmEcho : String → Except String String := fun p => .ok p

/-- A mocked OCR service that always fails. -/
def ocrBoom : List Nat → Except String OcrPages := fun _ => .error "boom"

/-- A mocked OCR service whose pages join to whitespace only. -/
def ocrBlankPages : List Nat → Except String OcrPages :=
  fun _ => .ok [some " ", none, some ""]

/-- A mocked DOCX parser with two paragraphs. -/
def docxNice : List Nat → Except String (List String) :=
  fun _ => .ok ["Jane Doe", "Engineer"]

/-- A mocked DOCX parser yielding only blank paragraphs. -/
def docxBlank : List Nat → Except String (List String) :=
  fun _ => .ok [" ", ""]

/-- A mocked DOCX parser that rejects its input. -/
def docxBoom : List Nat → Except String (List String) :=
  fun _ => .error "bad zip"

/-- Per-iteration uuid oracle for the batch flow. -/
def uuidsW : Nat → String := fun i => "u" ++ toString i

/-- The three-file batch of spec §8: the second file's extraction fails
(`ocrBoom` rejects the PDF), the two DOCX files extract normally. -/
def batchFilesW : List UploadFile :=
  [UploadFile.mk "a.docx" [1], UploadFile.mk "b.pdf" [2], UploadFile.mk "c.docx" [3]]

/-- A concrete `JobRoleInput` whose delimited fields are the §8 input. -/
def jdInputW : JobRoleInput :=
  { job_title := "Engineer"
    company_name := "Acme"
    key_responsibilities := "Write code, Review PRs; Mentor juniors"
    required_skills := "Write code, Review PRs; Mentor juniors"
    experience_level := "Senior"
    location := "Remote"
    extra_details := none }

/-!
## Helper lemmas
-/

/-- Model of `get_llm_score` invokes the model exactly once, in every outcome. -/
theorem get_llm_score_trace (parse : String → Option Json)
    (llm : String → Except String String) (resume_text job_description : String) :
    (get_llm_score parse llm resume_text job_description).2
      = [Event.llmCall resume_text job_description] := by
  unfold get_llm_score
  cases llm (scorePrompt resume_text job_description) with
  | error e => rfl
  | ok content =>
    dsimp only
    cases parse content with
    | some j => rfl
    | none => rfl

/-- The two distinct failure details of `get_llm_score` never coincide. -/
theorem llm_error_details_ne (e : String) :
    "An error occurred with the LLM: " ++ e ≠ "LLM returned a non-JSON response." := by
  intro h
  have h5 : (("An error occurred with the LLM: " ++ e).data).head? = some 'A' := rfl
  rw [h] at h5
  have h6 : (some 'L' : Option Char) = some 'A' := h5
  exact absurd (Option.some.inj h6) (by decide)

/-!
## Claims
-/

/-- Claim C3: whenever the model's raw text response parses as JSON,
`get_llm_score` returns exactly the parsed JSON value, with no clamping of
the score into [0,100] and no check on the explanation. -/
theorem c3_score_passthrough (parse : String → Option Json)
    (llm : String → Except String String)
    (resume_text job_description content : String) (j : Json)
    (hllm : llm (scorePrompt resume_text job_description) = .ok content)
    (hparse : parse content = some j) :
    (get_llm_score parse llm resume_text job_description).1 = .ok j := by
  unfold get_llm_score
  rw [hllm]
  dsimp only
  rw [hparse]

/-- Witness for C3: the mocked model response
`{"score": 87.5, "explanation": "Strong match"}` yields exactly
`{score: 87.5, explanation: "Strong match"}`. -/
theorem c3_score_passthrough_witness :
    (get_llm_score parse87 llm87 "resume body" "job spec").1 = .ok scoreJson87 :=
  c3_score_passthrough parse87 llm87 "resume body" "job spec" jsonText87 scoreJson87
    rfl rfl

/-- Claim C4: `get_llm_score` fails in exactly two distinct kinds — the
fixed non-JSON detail when the response text does not parse, and the
wrapped transport message otherwise; every failure is one of these two, no
partial score is returned, and the model is invoked exactly once (no
retry). -/
theorem c4_score_failure_kinds (parse : String → Option Json)
    (llm : String → Except String String) (resume_text job_description : String) :
    (∀ content, llm (scorePrompt resume_text job_description) = .ok content →
        parse content = none →
        (get_llm_score parse llm resume_text job_description).1
          = .error (.http 500 "LLM returned a non-JSON response."))
    ∧ (∀ e, llm (scorePrompt resume_text job_description) = .error e →
        (get_llm_score parse llm resume_text job_description).1
          = .error (.http 500 ("An error occurred with the LLM: " ++ e)))
    ∧ (∀ err, (get_llm_score parse llm resume_text job_description).1 = .error err →
        err = .http 500 "LLM returned a non-JSON response."
          ∨ ∃ e, llm (scorePrompt resume_text job_description) = .error e
              ∧ err = .http 500 ("An error occurred with the LLM: " ++ e))
    ∧ (∀ e, (PyErr.http 500 ("An error occurred with the LLM: " ++ e))
          ≠ .http 500 "LLM returned a non-JSON response.")
    ∧ (get_llm_score parse llm resume_text job_description).2
        = [Event.llmCall resume_text job_description] := by
  refine ⟨?_, ?_, ?_, ?_, get_llm_score_trace parse llm resume_text job_description⟩
  · intro content h1 h2
    unfold get_llm_score
    rw [h1]
    dsimp only
    rw [h2]
  · intro e h1
    unfold get_llm_score
    rw [h1]
  · intro err herr
    unfold get_llm_score at herr
    cases h1 : llm (scorePrompt resume_text job_description) with
    | error e =>
      rw [h1] at herr
      dsimp only at herr
      right
      exact ⟨e, rfl, (Except.error.inj herr).symm⟩
    | ok content =>
      rw [h1] at herr
      dsimp only at herr
      cases h2 : parse content with
      | some j => rw [h2] at herr; exact absurd herr (by simp)
      | none =>
        rw [h2] at herr
        left
        exact (Except.error.inj herr).symm
  · intro e h
    exact llm_error_details_ne e (PyErr.http.inj h).2

/-- Witness for C4: the prose answer of the mocked model raises the fixed
non-JSON failure; a transport failure is wrapped with its message. -/
theorem c4_score_failure_kinds_witness :
    (get_llm_score parse87 llmProse "r" "j").1
      = .error (.http 500 "LLM returned a non-JSON response.")
    ∧ (get_llm_score parse87 llmDown "r" "j").1
      = .error (.http 500 "An error occurred with the LLM: connection refused") :=
  ⟨(c4_score_failure_kinds parse87 llmProse "r" "j").1 "I cannot comply" rfl rfl,
   (c4_score_failure_kinds parse87 llmDown "r" "j").2.1 "connection refused" rfl⟩

/-- Claim C5: on a successful OCR response the output text is the pages'
`markdown` values joined in page order by single spaces, a page missing
the field contributing `""`; a whitespace-only concatenation is still
returned as a success at this layer. -/
theorem c5_ocr_concatenation (ocr : List Nat → Except String OcrPages)
    (docx : List Nat → Except String (List String))
    (file_bytes : List Nat) (pages : OcrPages)
    (h : ocr file_bytes = .ok pages) :
    extract_resume_text ocr docx file_bytes "pdf"
      = .ok (pyJoin " " (pages.map (fun p => p.getD ""))) := by
  unfold extract_resume_text ocrExtract
  rw [if_pos rfl, h]

/-- Witness for C5: a `markdown`-less page contributes the empty string
and the whitespace-only join `"   "` is returned, not rejected. -/
theorem c5_ocr_concatenation_witness :
    extract_resume_text ocrBlankPages docxBoom [1, 2] "pdf" = .ok "   " :=
  c5_ocr_concatenation ocrBlankPages docxBoom [1, 2] [some " ", none, some ""] rfl

/-- Claim C6: any declared type other than `"pdf"`/`"docx"` extracts to the
empty string without raising; `"pdf"` delegates to the OCR adapter and
`"docx"` to the DOCX adapter. -/
theorem c6_extractor_dispatch (ocr : List Nat → Except String OcrPages)
    (docx : List Nat → Except String (List String))
    (file_bytes : List Nat) (file_type : String) :
    (file_type ≠ "pdf" → file_type ≠ "docx" →
        extract_resume_text ocr docx file_bytes file_type = .ok "")
    ∧ extract_resume_text ocr docx file_bytes "pdf" = ocrExtract (ocr file_bytes)
    ∧ extract_resume_text ocr docx file_bytes "docx"
        = extract_text_from_docx (docx file_bytes) := by
  refine ⟨fun h1 h2 => ?_, ?_, ?_⟩
  · unfold extract_resume_text
    rw [if_neg h1, if_neg h2]
  · unfold extract_resume_text
    rw [if_pos rfl]
  · unfold extract_resume_text
    rw [if_neg (by decide), if_pos rfl]

/-- Witness for C6: a `"txt"` upload yields the empty string even though
both adapters would fail. -/
theorem c6_extractor_dispatch_witness :
    extract_resume_text ocrBoom docxBoom [7] "txt" = .ok "" :=
  (c6_extractor_dispatch ocrBoom docxBoom [7] "txt").1 (by decide) (by decide)

/-- Claim C7: on a parsed DOCX the paragraph texts are joined in document
order by newlines; on a parser failure the hard 500 failure carries the
underlying parser message. -/
theorem c7_docx_adapter (docxResult : Except String (List String)) :
    (∀ paragraphs, docxResult = .ok paragraphs →
        extract_text_from_docx docxResult = .ok (pyJoin "\n" paragraphs))
    ∧ (∀ e, docxResult = .error e →
        extract_text_from_docx docxResult
          = .error (.http 500 ("Error processing DOCX file: " ++ e))) := by
  constructor
  · intro paragraphs h
    subst h
    rfl
  · intro e h
    subst h
    rfl

/-- Witness for C7: two paragraphs join with a newline; a malformed input
surfaces the parser message inside the 500 detail. -/
theorem c7_docx_adapter_witness :
    extract_text_from_docx (.ok ["Jane Doe", "Engineer"]) = .ok "Jane Doe\nEngineer"
    ∧ extract_text_from_docx (.error "bad zip")
        = .error (.http 500 "Error processing DOCX file: bad zip") :=
  ⟨(c7_docx_adapter (.ok ["Jane Doe", "Engineer"])).1 ["Jane Doe", "Engineer"] rfl,
   (c7_docx_adapter (.error "bad zip")).2 "bad zip" rfl⟩

/-- Claim C8: the JD generator's naive split (semicolons replaced by commas,
split on commas, leading spaces retained) maps
`"Write code, Review PRs; Mentor juniors"` to exactly
`["Write code", " Review PRs", " Mentor juniors"]`, and that split list is
what the generator folds into its prompt. -/
theorem c8_naive_split :
    naiveSplit "Write code, Review PRs; Mentor juniors"
      = ["Write code", " Review PRs", " Mentor juniors"]
    ∧ generate_jd_from_llm llmEcho jdInputW
      = .ok (jdPrompt jdInputW
          (pyJoin "\n- " ["Write code", " Review PRs", " Mentor juniors"])
          (pyJoin "\n- " ["Write code", " Review PRs", " Mentor juniors"])) :=
  ⟨by decide, rfl⟩

/-- The SQL status update preserves membership of every stored status in
the allowed set, provided the written status is allowed. -/
theorem sqlUpdateStatus_closure (db : List AppRecord) (rid st : String)
    (allowed : List String) (hdb : ∀ r ∈ db, r.status ∈ allowed)
    (hst : st ∈ allowed) :
    ∀ r ∈ (sqlUpdateStatus db rid st).1, r.status ∈ allowed := by
  intro r hr
  unfold sqlUpdateStatus at hr
  rw [List.mem_map] at hr
  obtain ⟨r0, hr0, hmap⟩ := hr
  by_cases h : r0.id = rid
  · rw [if_pos h] at hmap
    rw [← hmap]
    exact hst
  · rw [if_neg h] at hmap
    rw [← hmap]
    exact hdb r0 hr0

/-- A status-update endpoint of the common shape leaves the table of a
generic update unchanged in the rejection branch and otherwise applies
`sqlUpdateStatus`; this lemma gives the closure property for that shape. -/
theorem statusEndpoint_closure (db : List AppRecord) (rid st : String)
    (allowed : List String) (okMsg : String) (notFound : PyErr)
    (hdb : ∀ r ∈ db, r.status ∈ allowed) :
    ∀ r ∈ (if st ∈ allowed then
            (if (sqlUpdateStatus db rid st).2 then
              ((.ok okMsg : Except PyErr String), (sqlUpdateStatus db rid st).1)
            else (.error notFound, (sqlUpdateStatus db rid st).1))
          else (.error (.http 400 "Invalid status"), db)).2,
      r.status ∈ allowed := by
  by_cases hst : st ∈ allowed
  · rw [if_pos hst]
    by_cases hupd : (sqlUpdateStatus db rid st).2
    · rw [if_pos hupd]
      exact sqlUpdateStatus_closure db rid st allowed hdb hst
    · rw [if_neg hupd]
      exact sqlUpdateStatus_closure db rid st allowed hdb hst
  · rw [if_neg hst]
    exact hdb

/-- Claim C10: each status-update endpoint rejects a status outside its
fixed allowed set with HTTP 400 and leaves the table unchanged, and under
these operations every stored status stays inside its enumerated set. -/
theorem c10_status_validation :
    (∀ (db : List AppRecord) (rid st : String), st ∉ candidateStatuses →
        update_candidate_status db rid st = (.error (.http 400 "Invalid status"), db))
    ∧ (∀ (db : List AppRecord) (rid st : String), st ∉ jobStatuses →
        update_job_status db rid st = (.error (.http 400 "Invalid status"), db))
    ∧ (∀ (db : List AppRecord) (rid st : String), st ∉ jobApplicationStatuses →
        update_job_application_status db rid st = (.error (.http 400 "Invalid status"), db))
    ∧ (∀ (db : List AppRecord) (rid st : String),
        (∀ r ∈ db, r.status ∈ candidateStatuses) →
        ∀ r ∈ (update_candidate_status db rid st).2, r.status ∈ candidateStatuses)
    ∧ (∀ (db : List AppRecord) (rid st : String),
        (∀ r ∈ db, r.status ∈ jobStatuses) →
        ∀ r ∈ (update_job_status db rid st).2, r.status ∈ jobStatuses)
    ∧ (∀ (db : List AppRecord) (rid st : String),
        (∀ r ∈ db, r.status ∈ jobApplicationStatuses) →
        ∀ r ∈ (update_job_application_status db rid st).2,
          r.status ∈ jobApplicationStatuses) := by
  refine ⟨?_, ?_, ?_, ?_, ?_, ?_⟩
  · intro db rid st h
    unfold update_candidate_status
    rw [if_neg h]
  · intro db rid st h
    unfold update_job_status
    rw [if_neg h]
  · intro db rid st h
    unfold update_job_application_status
    rw [if_neg h]
  · intro db rid st hdb
    unfold update_candidate_status
    exact statusEndpoint_closure db rid st candidateStatuses
      ("Status updated to " ++ st) (.http 404 "Application not found") hdb
  · intro db rid st hdb
    unfold update_job_status
    exact statusEndpoint_closure db rid st jobStatuses
      ("Job status updated to " ++ st) (.http 404 "Job not found") hdb
  · intro db rid st hdb
    unfold update_job_application_status
    exact statusEndpoint_closure db rid st jobApplicationStatuses
      ("Application status updated to " ++ st) (.http 404 "Application not found") hdb

/-- Witness for C10: the status `"bogus"` is rejected by the candidate
endpoint with HTTP 400 and the stored record is untouched. -/
theorem c10_status_validation_witness :
    update_candidate_status [AppRecord.mk "a1" "pending"] "a1" "bogus"
      = (.error (.http 400 "Invalid status"), [AppRecord.mk "a1" "pending"]) :=
  c10_status_validation.1 [AppRecord.mk "a1" "pending"] "a1" "bogus" (by decide)

/-- Characterization of the side effects of the single scoring flow:
every traced event presupposes a detected type, a successful non-blank
extraction, and — for the persistent writes — a successful scoring call. -/
theorem score_resume_trace (parse : String → Option Json)
    (llm : String → Except String String)
    (ocr : List Nat → Except String OcrPages)
    (docx : List Nat → Except String (List String))
    (uuidStr job_description filename : String) (file_bytes : List Nat)
    (candidate_name : Option String) :
    ∀ ev ∈ (score_resume parse llm ocr docx uuidStr job_description
              filename file_bytes candidate_name).2,
      ∃ fb ft rt,
        get_text_from_resume file_bytes filename = .ok (fb, ft) ∧
        extract_resume_text ocr docx fb ft = .ok rt ∧
        pyStrip rt ≠ "" ∧
        (ev = Event.llmCall rt job_description ∨
          (isWriteEvent ev = true ∧
            ∃ sd, (get_llm_score parse llm rt job_description).1 = .ok sd)) := by
  intro ev hev
  unfold score_resume at hev
  cases h1 : get_text_from_resume file_bytes filename with
  | error e =>
    rw [h1] at hev
    simp at hev
  | ok p =>
    obtain ⟨fb, ft⟩ := p
    rw [h1] at hev
    dsimp only at hev
    cases h2 : extract_resume_text ocr docx fb ft with
    | error e =>
      rw [h2] at hev
      simp at hev
    | ok rt =>
      rw [h2] at hev
      dsimp only at hev
      by_cases h3 : pyStrip rt = ""
      · rw [if_pos h3] at hev
        simp at hev
      · rw [if_neg h3] at hev
        refine ⟨fb, ft, rt, rfl, h2, h3, ?_⟩
        have htr := get_llm_score_trace parse llm rt job_description
        cases h4 : get_llm_score parse llm rt job_description with
        | mk r evs =>
          rw [h4] at hev htr
          dsimp only at hev htr
          subst htr
          cases r with
          | error e =>
            dsimp only at hev
            rw [List.mem_singleton] at hev
            exact Or.inl hev
          | ok score_data =>
            dsimp only at hev
            cases h5 : pyDictGet score_data "score" (.num 0) with
            | error m =>
              rw [h5] at hev
              dsimp only at hev
              rw [List.mem_append, List.mem_singleton, List.mem_singleton] at hev
              cases hev with
              | inl h => exact Or.inl h
              | inr h => exact Or.inr ⟨by rw [h]; rfl, score_data, rfl⟩
            | ok scoreJ =>
              rw [h5] at hev
              dsimp only at hev
              cases h6 : pyDictGet score_data "explanation" (.str "") with
              | error m =>
                rw [h6] at hev
                dsimp only at hev
                rw [List.mem_append, List.mem_singleton, List.mem_singleton] at hev
                cases hev with
                | inl h => exact Or.inl h
                | inr h => exact Or.inr ⟨by rw [h]; rfl, score_data, rfl⟩
              | ok explJ =>
                rw [h6] at hev
                dsimp only at hev
                cases h7 : mkScoreResponse score_data with
                | error e2 =>
                  rw [h7] at hev
                  dsimp only at hev
                  rw [List.mem_append, List.mem_singleton] at hev
                  rcases hev with h | h
                  · exact Or.inl h
                  · rw [List.mem_cons, List.mem_singleton] at h
                    rcases h with h | h
                    · exact Or.inr ⟨by rw [h]; rfl, score_data, rfl⟩
                    · exact Or.inr ⟨by rw [h]; rfl, score_data, rfl⟩
                | ok resp =>
                  rw [h7] at hev
                  dsimp only at hev
                  rw [List.mem_append, List.mem_singleton] at hev
                  rcases hev with h | h
                  · exact Or.inl h
                  · rw [List.mem_cons, List.mem_singleton] at h
                    rcases h with h | h
                    · exact Or.inr ⟨by rw [h]; rfl, score_data, rfl⟩
                    · exact Or.inr ⟨by rw [h]; rfl, score_data, rfl⟩

/-- Claim C2: the single scoring flow rejects a blank extraction with
HTTP 400 before any model call — its trace is empty in that case — and no
traced model invocation ever carries blank resume text. -/
theorem c2_blank_rejected_before_scoring (parse : String → Option Json)
    (llm : String → Except String String)
    (ocr : List Nat → Except String OcrPages)
    (docx : List Nat → Except String (List String))
    (uuidStr job_description filename : String) (file_bytes : List Nat)
    (candidate_name : Option String) :
    (∀ fb ft resume_text,
        get_text_from_resume file_bytes filename = .ok (fb, ft) →
        extract_resume_text ocr docx fb ft = .ok resume_text →
        pyStrip resume_text = "" →
        score_resume parse llm ocr docx uuidStr job_description
            filename file_bytes candidate_name
          = (.error (.http 400 "Could not extract any text from the resume."), []))
    ∧ (∀ rt jd2, Event.llmCall rt jd2 ∈ (score_resume parse llm ocr docx uuidStr
          job_description filename file_bytes candidate_name).2 →
        pyStrip rt ≠ "") := by
  constructor
  · intro fb ft resume_text h1 h2 h3
    unfold score_resume
    rw [h1]
    dsimp only
    rw [h2]
    dsimp only
    rw [if_pos h3]
  · intro rt jd2 hmem
    obtain ⟨fb, ft, rt2, _, _, hne, hcase⟩ :=
      score_resume_trace parse llm ocr docx uuidStr job_description
        filename file_bytes candidate_name _ hmem
    rcases hcase with h | ⟨hw, _⟩
    · have : rt = rt2 := (Event.llmCall.inj h).1
      rw [this]
      exact hne
    · exact absurd hw (by simp [isWriteEvent])

/-- Witness for C2: a DOCX whose paragraphs are all blank is rejected with
the 400 detail and an empty side-effect trace (no model call). -/
theorem c2_blank_rejected_before_scoring_witness :
    score_resume parse87 llm87 ocrBoom docxBlank "u0" "JD" "cv.docx" [9] none
      = (.error (.http 400 "Could not extract any text from the resume."), []) :=
  (c2_blank_rejected_before_scoring parse87 llm87 ocrBoom docxBlank
      "u0" "JD" "cv.docx" [9] none).1 [9] "docx" " \n" rfl rfl rfl

/-- Claim C9: the single scoring flow writes the resume file and creates the
application record only after type detection, extraction, the blank-text
check and scoring have all succeeded; contrapositively, when any of those
four steps fails, no file is written and no record is created. -/
theorem c9_writes_only_after_success (parse : String → Option Json)
    (llm : String → Except String String)
    (ocr : List Nat → Except String OcrPages)
    (docx : List Nat → Except String (List String))
    (uuidStr job_description filename : String) (file_bytes : List Nat)
    (candidate_name : Option String) :
    ∀ ev ∈ (score_resume parse llm ocr docx uuidStr job_description
              filename file_bytes candidate_name).2,
      isWriteEvent ev = true →
      ∃ fb ft rt sd,
        get_text_from_resume file_bytes filename = .ok (fb, ft) ∧
        extract_resume_text ocr docx fb ft = .ok rt ∧
        pyStrip rt ≠ "" ∧
        (get_llm_score parse llm rt job_description).1 = .ok sd := by
  intro ev hev hw
  obtain ⟨fb, ft, rt, h1, h2, h3, hcase⟩ :=
    score_resume_trace parse llm ocr docx uuidStr job_description
      filename file_bytes candidate_name ev hev
  rcases hcase with h | ⟨_, sd, hok⟩
  · rw [h] at hw
    exact absurd hw (by simp [isWriteEvent])
  · exact ⟨fb, ft, rt, sd, h1, h2, h3, hok⟩

/-- Witness for C9: in a fully successful run the resume file write is in
the trace, and the theorem recovers the four succeeded steps from it. -/
theorem c9_writes_only_after_success_witness :
    Event.fileWrite "uploads/u0.docx" [1]
        ∈ (score_resume parse87 llm87 ocrBoom docxNice "u0" "JD" "cv.docx" [1] none).2
    ∧ ∃ fb ft rt sd,
        get_text_from_resume [1] "cv.docx" = .ok (fb, ft) ∧
        extract_resume_text ocrBoom docxNice fb ft = .ok rt ∧
        pyStrip rt ≠ "" ∧
        (get_llm_score parse87 llm87 rt "JD").1 = .ok sd := by
  have hmem : Event.fileWrite "uploads/u0.docx" [1]
      ∈ (score_resume parse87 llm87 ocrBoom docxNice "u0" "JD" "cv.docx" [1] none).2 :=
    List.Mem.tail _ (List.Mem.head _)
  exact ⟨hmem,
    c9_writes_only_after_success parse87 llm87 ocrBoom docxNice "u0" "JD" "cv.docx" [1] none
      (Event.fileWrite "uploads/u0.docx" [1]) hmem rfl⟩

/-- The batch loop produces exactly one result per processed file. -/
theorem batchGo_results_length (parse : String → Option Json)
    (llm : String → Except String String)
    (ocr : List Nat → Except String OcrPages)
    (docx : List Nat → Except String (List String))
    (uuids : Nat → String) (jd : String) :
    ∀ (fs : List UploadFile) (i : Nat),
      ((batchGo parse llm ocr docx uuids jd i fs).1).length = fs.length := by
  intro fs
  induction fs with
  | nil => intro i; rfl
  | cons f rest ih =>
    intro i
    simp only [batchGo, List.length_cons]
    rw [ih]

/-- The `j`-th result of the batch loop depends only on the `j`-th file
(and the `j`-th fresh uuid): items are processed in isolation. -/
theorem batchGo_results_get (parse : String → Option Json)
    (llm : String → Except String String)
    (ocr : List Nat → Except String OcrPages)
    (docx : List Nat → Except String (List String))
    (uuids : Nat → String) (jd : String) :
    ∀ (fs : List UploadFile) (i j : Nat) (hj : j < fs.length)
      (hr : j < ((batchGo parse llm ocr docx uuids jd i fs).1).length),
      ((batchGo parse llm ocr docx uuids jd i fs).1).get ⟨j, hr⟩
        = (score_batch_item parse llm ocr docx (uuids (i + j)) jd
            (fs.get ⟨j, hj⟩)).1 := by
  intro fs
  induction fs with
  | nil => intro i j hj hr; exact absurd hj (by simp)
  | cons f rest ih =>
    intro i j hj hr
    cases j with
    | zero => rfl
    | succ j2 =>
      have hj2 : j2 < rest.length := by
        simp only [List.length_cons] at hj
        omega
      have hr2 : j2 < ((batchGo parse llm ocr docx uuids jd (i + 1) rest).1).length := by
        rw [batchGo_results_length]
        exact hj2
      have hstep : ((batchGo parse llm ocr docx uuids jd i (f :: rest)).1).get ⟨j2 + 1, hr⟩
          = ((batchGo parse llm ocr docx uuids jd (i + 1) rest).1).get ⟨j2, hr2⟩ := rfl
      rw [hstep, ih (i + 1) j2 hj2 hr2]
      have harith : (i + 1) + j2 = i + (j2 + 1) := by omega
      rw [harith]
      rfl

/-- A batch item whose extraction raises is replaced by the degraded entry
with score 0 and the error text. -/
theorem score_batch_item_extraction_failure (parse : String → Option Json)
    (llm : String → Except String String)
    (ocr : List Nat → Except String OcrPages)
    (docx : List Nat → Except String (List String))
    (uuidStr jd : String) (f : UploadFile) (fb : List Nat) (ft : String) (e : PyErr)
    (h1 : get_text_from_resume f.bytes f.filename = .ok (fb, ft))
    (h2 : extract_resume_text ocr docx fb ft = .error e) :
    (score_batch_item parse llm ocr docx uuidStr jd f).1
      = ScoreResponse.mk 0 ("Error processing file: " ++ e.toPy) (some f.filename) := by
  unfold score_batch_item
  rw [h1]
  dsimp only
  rw [h2]

/-- A batch item whose scoring call raises is replaced by the degraded
entry with score 0 and the error text. -/
theorem score_batch_item_scoring_failure (parse : String → Option Json)
    (llm : String → Except String String)
    (ocr : List Nat → Except String OcrPages)
    (docx : List Nat → Except String (List String))
    (uuidStr jd : String) (f : UploadFile) (fb : List Nat) (ft rt : String) (e : PyErr)
    (h1 : get_text_from_resume f.bytes f.filename = .ok (fb, ft))
    (h2 : extract_resume_text ocr docx fb ft = .ok rt)
    (h3 : pyStrip rt ≠ "")
    (h4 : (get_llm_score parse llm rt jd).1 = .error e) :
    (score_batch_item parse llm ocr docx uuidStr jd f).1
      = ScoreResponse.mk 0 ("Error processing file: " ++ e.toPy) (some f.filename) := by
  unfold score_batch_item
  rw [h1]
  dsimp only
  rw [h2]
  dsimp only
  rw [if_neg h3]
  cases h5 : get_llm_score parse llm rt jd with
  | mk r evs =>
    rw [h5] at h4
    dsimp only at h4
    cases r with
    | error e2 =>
      dsimp only
      rw [Except.error.inj h4]
    | ok sd => exact absurd h4 (by simp)

/-- Claim C1: the batch flow yields one result per processed file in input
order, capped at five files; each entry depends only on its own file, and
a file whose extraction or scoring raises is replaced positionally by the
degraded entry with score 0 and the error text, the other entries being
computed exactly as if the failure had not happened. -/
theorem c1_batch_isolation (parse : String → Option Json)
    (llm : String → Except String String)
    (ocr : List Nat → Except String OcrPages)
    (docx : List Nat → Except String (List String))
    (uuids : Nat → String) (job_description : String)
    (resume_files : List UploadFile) :
    ((score_resumes_batch parse llm ocr docx uuids job_description resume_files).1).length
        = min 5 resume_files.length
    ∧ (∀ (i : Nat) (hf : i < (resume_files.take 5).length)
        (hr : i < ((score_resumes_batch parse llm ocr docx uuids job_description
            resume_files).1).length),
        ((score_resumes_batch parse llm ocr docx uuids job_description
            resume_files).1).get ⟨i, hr⟩
          = (score_batch_item parse llm ocr docx (uuids i) job_description
              ((resume_files.take 5).get ⟨i, hf⟩)).1)
    ∧ (∀ (i : Nat) (hf : i < (resume_files.take 5).length)
        (hr : i < ((score_resumes_batch parse llm ocr docx uuids job_description
            resume_files).1).length)
        (fb : List Nat) (ft : String) (e : PyErr),
        get_text_from_resume ((resume_files.take 5).get ⟨i, hf⟩).bytes
            ((resume_files.take 5).get ⟨i, hf⟩).filename = .ok (fb, ft) →
        extract_resume_text ocr docx fb ft = .error e →
        ((score_resumes_batch parse llm ocr docx uuids job_description
            resume_files).1).get ⟨i, hr⟩
          = ScoreResponse.mk 0 ("Error processing file: " ++ e.toPy)
              (some ((resume_files.take 5).get ⟨i, hf⟩).filename))
    ∧ (∀ (i : Nat) (hf : i < (resume_files.take 5).length)
        (hr : i < ((score_resumes_batch parse llm ocr docx uuids job_description
            resume_files).1).length)
        (fb : List Nat) (ft rt : String) (e : PyErr),
        get_text_from_resume ((resume_files.take 5).get ⟨i, hf⟩).bytes
            ((resume_files.take 5).get ⟨i, hf⟩).filename = .ok (fb, ft) →
        extract_resume_text ocr docx fb ft = .ok rt →
        pyStrip rt ≠ "" →
        (get_llm_score parse llm rt job_description).1 = .error e →
        ((score_resumes_batch parse llm ocr docx uuids job_description
            resume_files).1).get ⟨i, hr⟩
          = ScoreResponse.mk 0 ("Error processing file: " ++ e.toPy)
              (some ((resume_files.take 5).get ⟨i, hf⟩).filename)) := by
  have hget : ∀ (i : Nat) (hf : i < (resume_files.take 5).length)
      (hr : i < ((score_resumes_batch parse llm ocr docx uuids job_description
          resume_files).1).length),
      ((score_resumes_batch parse llm ocr docx uuids job_description
          resume_files).1).get ⟨i, hr⟩
        = (score_batch_item parse llm ocr docx (uuids i) job_description
            ((resume_files.take 5).get ⟨i, hf⟩)).1 := by
    intro i hf hr
    have h := batchGo_results_get parse llm ocr docx uuids job_description
      (resume_files.take 5) 0 i hf hr
    rw [Nat.zero_add] at h
    exact h
  refine ⟨?_, hget, ?_, ?_⟩
  · unfold score_resumes_batch
    rw [batchGo_results_length]
    exact List.length_take 5 resume_files
  · intro i hf hr fb ft e h1 h2
    rw [hget i hf hr]
    exact score_batch_item_extraction_failure parse llm ocr docx (uuids i)
      job_description ((resume_files.take 5).get ⟨i, hf⟩) fb ft e h1 h2
  · intro i hf hr fb ft rt e h1 h2 h3 h4
    rw [hget i hf hr]
    exact score_batch_item_scoring_failure parse llm ocr docx (uuids i)
      job_description ((resume_files.take 5).get ⟨i, hf⟩) fb ft rt e h1 h2 h3 h4

/-- Witness for C1: on the three-file batch where the second file's OCR
extraction fails, the result list has length 3, item 2 is the degraded
entry with score 0 and the error text, and items 1 and 3 carry the normal
mocked scores. -/
theorem c1_batch_isolation_witness :
    ((score_resumes_batch parse87 llm87 ocrBoom docxNice uuidsW "JD" batchFilesW).1).length = 3
    ∧ ((score_resumes_batch parse87 llm87 ocrBoom docxNice uuidsW "JD"
        batchFilesW).1).get ⟨0, by decide⟩
      = ScoreResponse.mk score87 "Strong match" (some "a.docx")
    ∧ ((score_resumes_batch parse87 llm87 ocrBoom docxNice uuidsW "JD"
        batchFilesW).1).get ⟨1, by decide⟩
      = ScoreResponse.mk 0 "Error processing file: 500: OCR processing failed: boom"
          (some "b.pdf")
    ∧ ((score_resumes_batch parse87 llm87 ocrBoom docxNice uuidsW "JD"
        batchFilesW).1).get ⟨2, by decide⟩
      = ScoreResponse.mk score87 "Strong match" (some "c.docx") := by
  have h := c1_batch_isolation parse87 llm87 ocrBoom docxNice uuidsW "JD" batchFilesW
  refine ⟨h.1.trans (by decide), ?_, ?_, ?_⟩
  · exact (h.2.1 0 (by decide) (by decide)).trans (by decide)
  · exact (h.2.2.1 1 (by decide) (by decide) [2] "pdf"
      (.http 500 ("OCR processing failed: " ++ "boom")) rfl rfl).trans (by decide)
  · exact (h.2.1 2 (by decide) (by decide)).trans (by decide)

end HRProject
